import Mathlib

/-!
Verification of `notion_df/configs.py`: the property-configuration model,
the type registry, the config parser, schema construction (`from_raw`,
`from_df`), column-type inference and the per-type sanitization pipeline.

The Python code is embedded shallowly: pydantic models become structures
with explicit field parsing (faithful to pydantic v1 semantics, in which a
`@validator` without `always=True` is skipped when the field is not
supplied and the default is used), pandas dtype predicates become
functions on an explicit `Dtype` type (faithful to pandas semantics, in
particular `is_numeric_dtype` holds for boolean dtypes since `np.bool_`
is among its accepted classes), and raised exceptions become `Except`.
-/

set_option autoImplicit false

namespace NotionDf

/-- JSON-like raw values appearing in raw configuration payloads. -/
inductive RawValue where
  | str (s : String)
  | int (n : Int)
  | dict (entries : List (String × RawValue))
  | list (elems : List RawValue)
  | null

/-- First-match lookup in an association list, the behaviour of a Python
`dict` access for the dictionaries we model (keys are unique). -/
def alookup {α : Type} : List (String × α) → String → Option α
  | [], _ => none
  | (k, v) :: rest, key => if k = key then some v else alookup rest key

/-- The declared `BasePropertyConfig` subclasses, in source order. -/
inductive Variant where
  | title | richText | number | select | multiSelect | date | people | files
  | checkbox | url | email | phoneNumber | formula | relation | rollup
  | createdTime | createdBy | lastEditedTime | lastEditedBy
  deriving DecidableEq, Repr

/-- `cls.__name__` of each config class. -/
def Variant.className : Variant → String
  | .title => "TitleConfig"
  | .richText => "RichTextConfig"
  | .number => "NumberConfig"
  | .select => "SelectConfig"
  | .multiSelect => "MultiSelectConfig"
  | .date => "DateConfig"
  | .people => "PeopleConfig"
  | .files => "FilesConfig"
  | .checkbox => "CheckboxConfig"
  | .url => "URLConfig"
  | .email => "EmailConfig"
  | .phoneNumber => "PhoneNumberConfig"
  | .formula => "FormulaConfig"
  | .relation => "RelationConfig"
  | .rollup => "RollupConfig"
  | .createdTime => "CreatedTimeConfig"
  | .createdBy => "CreatedByConfig"
  | .lastEditedTime => "LastEditedTimeConfig"
  | .lastEditedBy => "LastEditedByConfig"

/-- The single field each subclass declares (its namesake payload field).
Note `RollupConfig` declares `roll_up`, not `rollup`. -/
def Variant.ownField : Variant → String
  | .title => "title"
  | .richText => "rich_text"
  | .number => "number"
  | .select => "select"
  | .multiSelect => "multi_select"
  | .date => "date"
  | .people => "people"
  | .files => "files"
  | .checkbox => "checkbox"
  | .url => "url"
  | .email => "email"
  | .phoneNumber => "phone_number"
  | .formula => "formula"
  | .relation => "relation"
  | .rollup => "roll_up"
  | .createdTime => "created_time"
  | .createdBy => "created_by"
  | .lastEditedTime => "last_edited_time"
  | .lastEditedBy => "last_edited_by"

/-- `list(cls.__fields__.keys())`: pydantic lists the parent's fields
(`id`, `type`) first, then the subclass's own field. -/
def Variant.fields (v : Variant) : List String := ["id", "type", v.ownField]

/-- `list(cls.__fields__.keys())[-1]`: the tag the `type` validator
derives for the variant. -/
def Variant.autoType (v : Variant) : String := v.fields.getLastD ""

/-- `BasePropertyConfig.__subclasses__()`, in definition order. -/
def allVariants : List Variant :=
  [.title, .richText, .number, .select, .multiSelect, .date, .people, .files,
   .checkbox, .url, .email, .phoneNumber, .formula, .relation, .rollup,
   .createdTime, .createdBy, .lastEditedTime, .lastEditedBy]

/-- The camel-case to snake-case step of `_convert_classname_to_typename`:
`re.sub(r"(?<!^)(?=[A-Z])", "_", s)` inserts an underscore before every
uppercase character that is not at the start of the string. -/
def insertUnderscores : Bool → List Char → List Char
  | _, [] => []
  | isFirst, c :: rest =>
    if c.isUpper && !isFirst then '_' :: c :: insertUnderscores false rest
    else c :: insertUnderscores false rest

/-- One pass of Python `str.replace` over character lists, fuelled so the
recursion is structural: whenever the pattern is a prefix, emit the
replacement and skip past the match, else keep the head character. The
fuel (one unit per character consumed) is sufficient for any non-empty
pattern. -/
def replaceCharsAux (pat repl : List Char) : Nat → List Char → List Char
  | 0, l => l
  | _ + 1, [] => []
  | fuel + 1, c :: rest =>
    if pat ≠ [] && pat.isPrefixOf (c :: rest) then
      repl ++ replaceCharsAux pat repl fuel ((c :: rest).drop pat.length)
    else
      c :: replaceCharsAux pat repl fuel rest

/-- Python `s.replace(pat, repl)` (all non-overlapping occurrences). -/
def stringReplace (s pat repl : String) : String :=
  String.mk (replaceCharsAux pat.toList repl.toList s.toList.length s.toList)

/-- `_convert_classname_to_typename`: drop `Config`, normalise `URL`,
snake-case, lowercase. -/
def convert_classname_to_typename (s : String) : String :=
  let s := stringReplace (stringReplace s "Config" "") "URL" "Url"
  String.mk ((insertUnderscores true s.toList).map Char.toLower)

/-- The registry tag of a variant, as computed for `CONFIGS_MAPPING`. -/
def Variant.registryTag (v : Variant) : String :=
  convert_classname_to_typename v.className

/-- `CONFIGS_MAPPING`: registry tag → variant, built from the subclass list. -/
def CONFIGS_MAPPING : List (String × Variant) :=
  allVariants.map fun v => (v.registryTag, v)

example : Variant.rollup.registryTag = "rollup" := by decide
example : Variant.rollup.autoType = "roll_up" := by decide
example : Variant.url.registryTag = "url" := by decide
example : Variant.lastEditedBy.registryTag = "last_edited_by" := by decide

/-! ### Errors

The Python code signals failures through exceptions (pydantic
`ValidationError` wrapping `ValueError`/`AssertionError` from validators,
`KeyError`/`IndexError`/`AttributeError` from lookups). We keep the error
kinds of the spec apart. -/

inductive ConfigError where
  | unknownPropertyType (tag : String)
  | invalidConfigShape (field reason : String)
  | discriminantMismatch (expected got : String)
  | keyError (key : String)
  | typeError (msg : String)
  | indexError (msg : String)
  deriving DecidableEq, Repr

/-! ### Pandas values and dtypes

The dataset oracle: values a column can hold and the dtype predicates the
inference engine queries. Python scalars and (flat) lists of scalars cover
every value the claims exercise. -/

/-- A scalar value in a column. `pyTypeStr` is the builtin class object
`str` itself, which occurs as a value through
`[str for cat in dtype.categories]` in `_infer_series_config`. -/
inductive PScalar where
  | pstr (s : String)
  | pint (n : Int)
  | pbool (b : Bool)
  | pdatetime (iso : String)
  | pNone
  | nan
  | pyTypeStr
  deriving DecidableEq, Repr

inductive PandasValue where
  | scalar (v : PScalar)
  | plist (elems : List PScalar)
  deriving DecidableEq, Repr

/-- Python `repr` on the scalars we model. -/
def pyReprScalar : PScalar → String
  | .pstr s => "'" ++ s ++ "'"
  | .pint n => toString n
  | .pbool true => "True"
  | .pbool false => "False"
  | .pdatetime iso => "Timestamp('" ++ iso ++ "')"
  | .pNone => "None"
  | .nan => "nan"
  | .pyTypeStr => "<class 'str'>"

/-- Python `str` on the scalars we model. -/
def pyStrScalar : PScalar → String
  | .pstr s => s
  | v => pyReprScalar v

/-- Python `str` on any column value (a list prints its elements' reprs). -/
def pyStr : PandasValue → String
  | .scalar v => pyStrScalar v
  | .plist es => "[" ++ String.intercalate ", " (es.map pyReprScalar) ++ "]"

/-- Column dtypes relevant to the inference engine. -/
inductive Dtype where
  | object
  | int64
  | float64
  | boolDtype
  | category (categories : List PScalar)
  | datetime64
  deriving DecidableEq, Repr

def is_object_dtype : Dtype → Bool
  | .object => true
  | _ => false

/-- pandas `is_numeric_dtype`: its accepted classes are `np.number` and
`np.bool_`, so a boolean dtype counts as numeric. Categorical and
datetime dtypes do not. -/
def is_numeric_dtype : Dtype → Bool
  | .int64 => true
  | .float64 => true
  | .boolDtype => true
  | _ => false

/-- pandas `is_bool_dtype`: true for the boolean dtype, and for a
categorical dtype whose categories are all booleans. -/
def is_bool_dtype : Dtype → Bool
  | .boolDtype => true
  | .category cats => !cats.isEmpty && cats.all fun c => match c with
      | .pbool _ => true
      | _ => false
  | _ => false

def is_categorical_dtype : Dtype → Bool
  | .category _ => true
  | _ => false

def is_datetime64_any_dtype : Dtype → Bool
  | .datetime64 => true
  | _ => false

/-- pandas `is_list_like` on a value: lists are list-like; strings,
`None`, `NaN` and other scalars are not. -/
def is_list_like : PandasValue → Bool
  | .plist _ => true
  | .scalar _ => false

/-- pandas missingness (`pd.isna`) on a value: `NaN` and `None`. -/
def isMissing : PandasValue → Bool
  | .scalar .nan => true
  | .scalar .pNone => true
  | _ => false

/-- The elements a list-like value yields when iterated. -/
def listElems : PandasValue → List PScalar
  | .plist es => es
  | .scalar _ => []

/-! ### Base property types

`SelectOptions`, `NumberFormat`, `FormulaProperty`, `RelationProperty`
and `RollUpProperty` live in `notion_df/base.py`, which is not among the
sources; they are modelled from the spec. -/

/-- A named select option (colour/order are assigned implicitly and carry
no information the claims use). -/
structure SelectOption where
  value : String
  deriving DecidableEq, Repr

structure SelectOptions where
  options : List SelectOption
  deriving DecidableEq, Repr

/-- Modelled from the spec: `SelectOptions.from_value` (in
`notion_df/base.py`, not among the sources) builds the option set from a
list of values, one option per value, deduplicated by option value
(§3: options are "deduplicated by value"). -/
def SelectOptions.from_value (vals : List PScalar) : SelectOptions :=
  ⟨((vals.map pyStrScalar).dedup).map SelectOption.mk⟩

structure NumberFormat where
  format : String
  deriving DecidableEq, Repr

structure FormulaProperty where
  expression : String
  deriving DecidableEq, Repr

structure RelationProperty where
  database_id : String
  relation_type : Option String
  deriving DecidableEq, Repr

structure RollUpProperty where
  relation_property_name : String
  rollup_property_name : String
  function : String
  deriving DecidableEq, Repr

/-! ### Property configs and the config parser -/

/-- The validated value of a variant's namesake field. -/
inductive ConfigValue where
  | emptyStruct
  | numberFmt (fmt : NumberFormat)
  | selectOpts (opts : Option SelectOptions)
  | multiSelectOpts (opts : Option SelectOptions)
  | formulaProp (p : FormulaProperty)
  | relationProp (p : RelationProperty)
  | rollupProp (p : RollUpProperty)
  deriving DecidableEq, Repr

/-- A constructed `BasePropertyConfig` instance: its class (`variant`),
its `id` and `type` fields, and its namesake payload field. `type` is an
`Option` because pydantic leaves it at its default `None` whenever the
field is not supplied (the `type` validator is declared without
`always=True`, so it is skipped in that case). -/
structure PropertyConfig where
  variant : Variant
  id : Option String
  type : Option String
  value : ConfigValue
  deriving DecidableEq, Repr

/-- `BasePropertyConfig.automatically_set_type_value`: with the field
supplied as `None` the tag is derived from the last declared field; with
the field supplied as a string, an `assert` requires it to equal that
tag (an assertion failure becomes a validation error). -/
def automatically_set_type_value (cls : Variant) (v : Option String) :
    Except ConfigError String :=
  let t := cls.autoType
  match v with
  | none => .ok t
  | some s => if t = s then .ok t else .error (.discriminantMismatch t s)

/-- Validation of the `id : Optional[str]` field from raw input. -/
def parseIdField : Option RawValue → Except ConfigError (Option String)
  | none => .ok none
  | some .null => .ok none
  | some (.str s) => .ok (some s)
  | some _ => .error (.invalidConfigShape "id" "str type expected")

/-- Validation of the `type : Optional[str]` field from raw input.
When the field is absent, pydantic keeps the default `None` and skips
the validator; when it is supplied (even as `None`), the validator runs. -/
def parseTypeField (cls : Variant) : Option RawValue → Except ConfigError (Option String)
  | none => .ok none
  | some .null => (automatically_set_type_value cls none).map some
  | some (.str s) => (automatically_set_type_value cls (some s)).map some
  | some _ => .error (.invalidConfigShape "type" "str type expected")

/-- Validation of a structural-only variant's namesake `Dict = {}` field:
absent means the default `{}` (validator skipped); a supplied dict runs
the `..._is_empty_dict` validator, which rejects any non-empty dict. -/
def parseEmptyDictField (fieldName : String) :
    Option RawValue → Except ConfigError ConfigValue
  | none => .ok .emptyStruct
  | some (.dict d) =>
    if d.isEmpty then .ok .emptyStruct
    else .error (.invalidConfigShape fieldName ("The " ++ fieldName ++ " dict must be empty"))
  | some _ => .error (.invalidConfigShape fieldName "value is not a valid dict")

/-- Modelled from the spec: raw validation of `NumberFormat` (in
`notion_df/base.py`, not among the sources) — a structure carrying an
enumerated display `format` string (§3; the format set is not
enumerated exhaustively, so any string is admitted). -/
def NumberFormat.parseRaw : RawValue → Except ConfigError NumberFormat
  | .dict d =>
    match alookup d "format" with
    | some (.str f) => .ok ⟨f⟩
    | _ => .error (.invalidConfigShape "number" "format field required")
  | _ => .error (.invalidConfigShape "number" "value is not a valid dict")

/-- Modelled from the spec: raw validation of one named option
(value; colour/order implicit). -/
def SelectOption.parseRaw : RawValue → Except ConfigError SelectOption
  | .dict d =>
    match alookup d "value" with
    | some (.str s) => .ok ⟨s⟩
    | _ => .error (.invalidConfigShape "options" "option value required")
  | _ => .error (.invalidConfigShape "options" "option must be a dict")

/-- Modelled from the spec: raw validation of `SelectOptions` (in
`notion_df/base.py`, not among the sources) — an ordered set of named
options (§3). -/
def SelectOptions.parseRaw (field : String) : RawValue → Except ConfigError SelectOptions
  | .dict d =>
    match alookup d "options" with
    | some (.list items) => (items.mapM SelectOption.parseRaw).map SelectOptions.mk
    | _ => .error (.invalidConfigShape field "options field required")
  | _ => .error (.invalidConfigShape field "value is not a valid dict")

/-- Modelled from the spec: raw validation of `FormulaProperty` (in
`notion_df/base.py`, not among the sources) — carries a formula
expression string (§3). -/
def FormulaProperty.parseRaw : RawValue → Except ConfigError FormulaProperty
  | .dict d =>
    match alookup d "expression" with
    | some (.str s) => .ok ⟨s⟩
    | _ => .error (.invalidConfigShape "formula" "expression field required")
  | _ => .error (.invalidConfigShape "formula" "value is not a valid dict")

/-- Modelled from the spec: raw validation of `RelationProperty` (in
`notion_df/base.py`, not among the sources) — a target database
identifier plus a relation-type descriptor (§3). -/
def RelationProperty.parseRaw : RawValue → Except ConfigError RelationProperty
  | .dict d =>
    match alookup d "database_id" with
    | some (.str s) =>
      match alookup d "type" with
      | some (.str t) => .ok ⟨s, some t⟩
      | none => .ok ⟨s, none⟩
      | _ => .error (.invalidConfigShape "relation" "str type expected")
    | _ => .error (.invalidConfigShape "relation" "database_id field required")
  | _ => .error (.invalidConfigShape "relation" "value is not a valid dict")

/-- Modelled from the spec: raw validation of `RollUpProperty` (in
`notion_df/base.py`, not among the sources) — the relation property
aggregated over, the target property, and an aggregation function
name (§3). -/
def RollUpProperty.parseRaw : RawValue → Except ConfigError RollUpProperty
  | .dict d =>
    match alookup d "relation_property_name", alookup d "rollup_property_name",
          alookup d "function" with
    | some (.str a), some (.str b), some (.str c) => .ok ⟨a, b, c⟩
    | _, _, _ => .error (.invalidConfigShape "roll_up" "three str fields required")
  | _ => .error (.invalidConfigShape "roll_up" "value is not a valid dict")

/-- Validation of a variant's namesake field from raw input. -/
def parseValueField (cls : Variant) (raw : Option RawValue) :
    Except ConfigError ConfigValue :=
  match cls with
  | .number =>
    match raw with
    | none => .error (.invalidConfigShape "number" "field required")
    | some r => (NumberFormat.parseRaw r).map .numberFmt
  | .select =>
    match raw with
    | none => .ok (.selectOpts none)
    | some .null => .ok (.selectOpts none)
    | some r => (SelectOptions.parseRaw "select" r).map fun o => .selectOpts (some o)
  | .multiSelect =>
    match raw with
    | none => .ok (.multiSelectOpts none)
    | some .null => .ok (.multiSelectOpts none)
    | some r => (SelectOptions.parseRaw "multi_select" r).map fun o => .multiSelectOpts (some o)
  | .formula =>
    match raw with
    | none => .error (.invalidConfigShape "formula" "field required")
    | some r => (FormulaProperty.parseRaw r).map .formulaProp
  | .relation =>
    match raw with
    | none => .error (.invalidConfigShape "relation" "field required")
    | some r => (RelationProperty.parseRaw r).map .relationProp
  | .rollup =>
    match raw with
    | none => .error (.invalidConfigShape "roll_up" "field required")
    | some r => (RollUpProperty.parseRaw r).map .rollupProp
  | v => parseEmptyDictField v.ownField raw

/-- `parse_obj_as(cls, data)`: validate each declared field of the class
from the raw payload, in declaration order (`id`, `type`, namesake);
extra keys are ignored. -/
def parseVariant (cls : Variant) (data : List (String × RawValue)) :
    Except ConfigError PropertyConfig := do
  let idv ← parseIdField (alookup data "id")
  let tyv ← parseTypeField cls (alookup data "type")
  let val ← parseValueField cls (alookup data cls.ownField)
  pure ⟨cls, idv, tyv, val⟩

/-- `parse_single_config`: `parse_obj_as(CONFIGS_MAPPING[data["type"]], data)`.
A missing or non-string `type` key raises a lookup error; an unregistered
tag raises `KeyError` on `CONFIGS_MAPPING` (the spec's "unknown property
type"). -/
def parse_single_config (data : List (String × RawValue)) :
    Except ConfigError PropertyConfig := do
  let tyRaw ← match alookup data "type" with
    | some r => Except.ok r
    | none => Except.error (.keyError "type")
  let tag ← match tyRaw with
    | .str s => Except.ok s
    | _ => Except.error (.keyError "type")
  let cls ← match alookup CONFIGS_MAPPING tag with
    | some cls => Except.ok cls
    | none => Except.error (.unknownPropertyType tag)
  parseVariant cls data

/-! ### Direct constructions used by the inference engine

In `TitleConfig()` and the like no `type` argument is supplied, so the
`type` validator is skipped and the field keeps its default `None`. -/

def TitleConfig_default : PropertyConfig := ⟨.title, none, none, .emptyStruct⟩

def RichTextConfig_default : PropertyConfig := ⟨.richText, none, none, .emptyStruct⟩

def CheckboxConfig_default : PropertyConfig := ⟨.checkbox, none, none, .emptyStruct⟩

def DateConfig_default : PropertyConfig := ⟨.date, none, none, .emptyStruct⟩

/-- `NumberConfig(number=NumberFormat(format="number"))`. -/
def NumberConfig_number : PropertyConfig := ⟨.number, none, none, .numberFmt ⟨"number"⟩⟩

/-- `SelectConfig(select=opts)`. -/
def SelectConfig_of (opts : SelectOptions) : PropertyConfig :=
  ⟨.select, none, none, .selectOpts (some opts)⟩

/-- `MultiSelectConfig(multi_select=opts)`. -/
def MultiSelectConfig_of (opts : SelectOptions) : PropertyConfig :=
  ⟨.multiSelect, none, none, .multiSelectOpts (some opts)⟩

/-- `RollupConfig(roll_up=p)`. -/
def RollupConfig_of (p : RollUpProperty) : PropertyConfig :=
  ⟨.rollup, none, none, .rollupProp p⟩

/-! ### Datasets -/

structure Series where
  dtype : Dtype
  values : List PandasValue
  deriving DecidableEq, Repr

structure DataFrame where
  cols : List (String × Series)
  deriving DecidableEq, Repr

/-- `dtype.categories` of a categorical dtype. -/
def Dtype.categories : Dtype → List PScalar
  | .category cats => cats
  | _ => []

/-! ### The inference engine -/

/-- `_infer_series_config`, branch for branch. In the object branch,
`set(list(itertools.chain.from_iterable(column.to_list())))` becomes
deduplication of the concatenated element lists, and
`[str(ele) for ele in all_possible_values]` stringifies after the
deduplication. -/
def _infer_series_config (column : Series) : Option PropertyConfig :=
  let dtype := column.dtype
  if is_object_dtype dtype then
    if column.values.all is_list_like then
      let distinct := ((column.values.map listElems).flatten).dedup
      let all_possible_values := distinct.map pyStrScalar
      some (MultiSelectConfig_of
        (SelectOptions.from_value (all_possible_values.map .pstr)))
    else
      some RichTextConfig_default
  else if is_numeric_dtype dtype then
    some NumberConfig_number
  else if is_bool_dtype dtype then
    some CheckboxConfig_default
  else if is_categorical_dtype dtype then
    -- `SelectOptions.from_value([str for cat in dtype.categories])`:
    -- the comprehension yields the builtin class `str` once per category.
    some (SelectConfig_of
      (SelectOptions.from_value (dtype.categories.map fun _ => .pyTypeStr)))
  else if is_datetime64_any_dtype dtype then
    some DateConfig_default
  else
    none

/-! ### The sanitization pipeline -/

/-- Modelled from the spec: `SECURE_STR_TRANSFORM` (in `notion_df/utils.py`,
not among the sources) coerces a value to a safe string; a missing value
stays missing (§4.5: sanitizers tolerate missing values and keep them
missing). -/
def SECURE_STR_TRANSFORM : PandasValue → PandasValue
  | .scalar .nan => .scalar .nan
  | .scalar .pNone => .scalar .pNone
  | v => .scalar (.pstr (pyStr v))

/-- Python truthiness of the scalars we model. -/
def pyTruthyScalar : PScalar → Bool
  | .pstr s => !s.isEmpty
  | .pint n => decide (n ≠ 0)
  | .pbool b => b
  | .pdatetime _ => true
  | .pNone => false
  | .nan => true
  | .pyTypeStr => true

/-- Modelled from the spec: `SECURE_BOOL_TRANSFORM` (in `notion_df/utils.py`,
not among the sources) coerces a value to a safe boolean; a missing value
stays missing (§4.5). -/
def SECURE_BOOL_TRANSFORM : PandasValue → PandasValue
  | .scalar .nan => .scalar .nan
  | .scalar .pNone => .scalar .pNone
  | .scalar v => .scalar (.pbool (pyTruthyScalar v))
  | .plist es => .scalar (.pbool (!es.isEmpty))

/-- Modelled from the spec: `SECURE_TIME_TRANSFORM` (in `notion_df/utils.py`,
not among the sources) coerces a value to a safe timestamp; a missing
value stays missing (§4.5). -/
def SECURE_TIME_TRANSFORM : PandasValue → PandasValue
  | .scalar .nan => .scalar .nan
  | .scalar .pNone => .scalar .pNone
  | .scalar (.pdatetime iso) => .scalar (.pdatetime iso)
  | v => .scalar (.pdatetime (pyStr v))

/-- The `multi_select` entry of `CONFIGS_DF_TRANSFORMER` (verbatim in the
sources): `lambda lst: [str(ele) for ele in lst] if is_list_like(lst)
else str(lst)`. -/
def multiSelectTransform (lst : PandasValue) : PandasValue :=
  if is_list_like lst then
    .plist ((listElems lst).map fun e => .pstr (pyStrScalar e))
  else
    .scalar (.pstr (pyStr lst))

/-- `CONFIGS_DF_TRANSFORMER`: discriminant tag → sanitizer or `None`. -/
def CONFIGS_DF_TRANSFORMER : List (String × Option (PandasValue → PandasValue)) :=
  [("title", some SECURE_STR_TRANSFORM),
   ("rich_text", some SECURE_STR_TRANSFORM),
   ("number", none),
   ("select", some SECURE_STR_TRANSFORM),
   ("multi_select", some multiSelectTransform),
   ("date", some SECURE_TIME_TRANSFORM),
   ("checkbox", some SECURE_BOOL_TRANSFORM),
   ("people", some SECURE_STR_TRANSFORM),
   ("files", some SECURE_STR_TRANSFORM),
   ("url", some SECURE_STR_TRANSFORM),
   ("email", some SECURE_STR_TRANSFORM),
   ("phone_number", some SECURE_STR_TRANSFORM),
   ("formula", some SECURE_STR_TRANSFORM),
   ("relation", some SECURE_STR_TRANSFORM),
   ("rollup", some SECURE_STR_TRANSFORM),
   ("created_time", some SECURE_STR_TRANSFORM),
   ("created_by", some SECURE_STR_TRANSFORM),
   ("last_edited_time", some SECURE_STR_TRANSFORM),
   ("last_edited_by", some SECURE_STR_TRANSFORM)]

/-! ### The schema -/

/-- `DatabaseSchema.configs`: a Python dict from column name to config.
The values are `Option PropertyConfig` because `from_df` stores the raw
result of `_infer_series_config`, which can be `None`. -/
structure DatabaseSchema where
  configs : List (String × Option PropertyConfig)
  deriving DecidableEq, Repr

/-- The dict comprehension of `from_raw`: parse each entry in order, the
first failure aborting the whole construction. -/
def parseEntries : List (String × List (String × RawValue)) →
    Except ConfigError (List (String × Option PropertyConfig))
  | [] => .ok []
  | (k, raw) :: rest => do
    let c ← parse_single_config raw
    let cs ← parseEntries rest
    pure ((k, some c) :: cs)

/-- `DatabaseSchema.from_raw`. -/
def DatabaseSchema.from_raw (configs : List (String × List (String × RawValue))) :
    Except ConfigError DatabaseSchema :=
  (parseEntries configs).map DatabaseSchema.mk

/-- Python dict assignment `d[k] = v`: overwrite in place when the key
exists (its position is preserved), append otherwise. -/
def dictSet {α : Type} (d : List (String × α)) (k : String) (v : α) :
    List (String × α) :=
  if d.any fun kv => kv.1 = k then
    d.map fun kv => if kv.1 = k then (k, v) else kv
  else
    d ++ [(k, v)]

/-- pandas `infer_objects` on one column, modelled for the value universe
at hand: an object column holding uniformly booleans (resp. uniformly
integers) converts to the boolean (resp. integer) dtype; every other
column is unchanged. -/
def Series.infer_objects (s : Series) : Series :=
  if s.dtype = .object then
    if !s.values.isEmpty && s.values.all fun v => match v with
        | .scalar (.pbool _) => true | _ => false then
      { s with dtype := .boolDtype }
    else if !s.values.isEmpty && s.values.all fun v => match v with
        | .scalar (.pint _) => true | _ => false then
      { s with dtype := .int64 }
    else s
  else s

/-- `df.infer_objects()`. -/
def DataFrame.infer_objects (df : DataFrame) : DataFrame :=
  ⟨df.cols.map fun kv => (kv.1, kv.2.infer_objects)⟩

/-- `DatabaseSchema.from_df`: infer a config per column in column order,
then force the designated title column (the explicit argument, else
`df.columns[0]`, an `IndexError` on an empty frame) to `TitleConfig()`. -/
def DatabaseSchema.from_df (df : DataFrame) (title_col : Option String) :
    Except ConfigError DatabaseSchema :=
  let df := df.infer_objects
  let configs := df.cols.foldl
    (fun acc kv => dictSet acc kv.1 (_infer_series_config kv.2)) []
  match title_col with
  | some t => .ok ⟨dictSet configs t (some TitleConfig_default)⟩
  | none =>
    match df.cols with
    | [] => .error (.indexError "index 0 is out of bounds")
    | c :: _ => .ok ⟨dictSet configs c.1 (some TitleConfig_default)⟩

/-- One step of the `transform` loop on the copied frame:
`CONFIGS_DF_TRANSFORMER[self[col].type]` (a `KeyError` when the column is
not in the schema, when the config's `type` is `None`, or when the tag
has no pipeline entry), then `df[col] = df[col].apply(transform)` unless
the entry is `None`. The transformed column's dtype is re-inferred by
pandas; we record it as object. -/
def transformColumn (sch : DatabaseSchema) (name : String) (s : Series) :
    Except ConfigError (String × Series) :=
  match alookup sch.configs name with
  | none => .error (.keyError name)
  | some none => .error (.typeError "NoneType object has no attribute type")
  | some (some cfg) =>
    match cfg.type with
    | none => .error (.keyError "None")
    | some tkey =>
      match alookup CONFIGS_DF_TRANSFORMER tkey with
      | none => .error (.keyError tkey)
      | some none => .ok (name, s)
      | some (some f) => .ok (name, ⟨.object, s.values.map f⟩)

/-- The `for col in df.columns` loop of `transform`, column by column;
the first failure propagates as the raised exception. -/
def transformCols (sch : DatabaseSchema) :
    List (String × Series) → Except ConfigError (List (String × Series))
  | [] => .ok []
  | kv :: rest => do
    let c ← transformColumn sch kv.1 kv.2
    let cs ← transformCols sch rest
    pure (c :: cs)

/-- `DatabaseSchema.transform`: `df = df.copy()`, rewrite each column of
the copy, return the copy. The input frame is left untouched. -/
def DatabaseSchema.transform (sch : DatabaseSchema) (df : DataFrame) :
    Except ConfigError DataFrame :=
  (transformCols sch df.cols).map DataFrame.mk

/-- The structural-only variants: those whose namesake payload must be
an empty dict. -/
def structuralVariants : List Variant :=
  [.title, .richText, .date, .people, .files, .checkbox, .url, .email,
   .phoneNumber, .createdTime, .createdBy, .lastEditedTime, .lastEditedBy]

/-! ## Claims -/

/-- **C1** (code bug, evaluated at the failing input): the claim says a
successfully constructed instance always carries the variant's canonical
tag, auto-derived when no explicit `type` is supplied. In pydantic v1 a
`@validator` without `always=True` is skipped when the field is not
supplied, so `TitleConfig()` keeps `type = None` although the canonical
tag derived by `automatically_set_type_value` would be `"title"`. The
mismatch half of the claim does hold: an explicit disagreeing tag is a
validation error, never a silent coercion. -/
theorem C1_type_none_when_unsupplied :
    parseTypeField Variant.title none = Except.ok none
  ∧ TitleConfig_default.type = none
  ∧ Variant.title.autoType = "title"
  ∧ Variant.title.registryTag = "title"
  ∧ automatically_set_type_value Variant.title (some "rich_text") =
      Except.error (ConfigError.discriminantMismatch "title" "rich_text")
  ∧ automatically_set_type_value Variant.title (some "title") =
      Except.ok "title" :=
  ⟨rfl, rfl, by decide, by decide, rfl, rfl⟩

/-- **C2**: for every structural-only variant, parsing a payload whose
namesake field is non-empty fails with the invalid-configuration error of
the `..._is_empty_dict` validator, and parsing a payload whose namesake
field is the empty dict succeeds with the discriminant equal to the
registry tag of the variant. -/
theorem C2_structural_parse (v : Variant) (hv : v ∈ structuralVariants)
    (d : List (String × RawValue)) (hd : d ≠ []) :
    parse_single_config [("type", .str v.registryTag), (v.registryTag, .dict d)] =
      .error (.invalidConfigShape v.ownField ("The " ++ v.ownField ++ " dict must be empty"))
  ∧ ∃ c, parse_single_config
        [("type", .str v.registryTag), (v.registryTag, .dict [])] = .ok c
      ∧ c.type = some v.registryTag ∧ c.variant = v := by
  obtain ⟨x, xs, rfl⟩ := List.exists_cons_of_ne_nil hd
  fin_cases hv <;> exact ⟨rfl, _, rfl, rfl, rfl⟩

/-- Witness for C2 at the title variant and a one-entry payload dict. -/
theorem C2_structural_parse_witness :
    parse_single_config
      [("type", RawValue.str "title"), ("title", RawValue.dict [("a", RawValue.null)])] =
      .error (.invalidConfigShape "title" "The title dict must be empty")
  ∧ ∃ c, parse_single_config
        [("type", RawValue.str "title"), ("title", RawValue.dict [])] = .ok c
      ∧ c.type = some "title" ∧ c.variant = Variant.title :=
  C2_structural_parse Variant.title (by decide) [("a", RawValue.null)]
    (List.cons_ne_nil _ _)

/-- When every entry of a raw mapping parses, the dict comprehension of
`from_raw` succeeds and keeps the keys in input order. -/
theorem parseEntries_ok_of_forall_ok :
    ∀ l : List (String × List (String × RawValue)),
      (∀ kv ∈ l, ∃ c, parse_single_config kv.2 = .ok c) →
      ∃ out, parseEntries l = .ok out ∧ out.map Prod.fst = l.map Prod.fst := by
  intro l
  induction l with
  | nil => exact fun _ => ⟨[], rfl, rfl⟩
  | cons hd tl ih =>
    intro h
    obtain ⟨k, raw⟩ := hd
    obtain ⟨c, hc⟩ := h (k, raw) (List.mem_cons_self _ _)
    obtain ⟨out, hout, hkeys⟩ := ih fun kv hkv => h kv (List.mem_cons_of_mem _ hkv)
    refine ⟨(k, some c) :: out, ?_, ?_⟩
    · simp [parseEntries, hc, hout, Bind.bind, Except.bind, Pure.pure, Except.pure]
    · simp [hkeys]

/-- When some entry of a raw mapping fails to parse, the dict
comprehension of `from_raw` fails. -/
theorem parseEntries_error_of_exists :
    ∀ l : List (String × List (String × RawValue)),
      (∃ kv ∈ l, ∃ e, parse_single_config kv.2 = .error e) →
      ∃ e, parseEntries l = .error e := by
  intro l
  induction l with
  | nil => rintro ⟨kv, hmem, _⟩; cases hmem
  | cons hd tl ih =>
    rintro ⟨kv, hmem, e, he⟩
    obtain ⟨k, raw⟩ := hd
    rcases List.mem_cons.mp hmem with h | h
    · subst h
      exact ⟨e, by simp [parseEntries, he, Bind.bind, Except.bind]⟩
    · cases hc : parse_single_config raw with
      | error e' => exact ⟨e', by simp [parseEntries, hc, Bind.bind, Except.bind]⟩
      | ok c =>
        obtain ⟨e', he'⟩ := ih ⟨kv, h, e, he⟩
        exact ⟨e', by simp [parseEntries, hc, he', Bind.bind, Except.bind]⟩

/-- **C3**: `from_raw` is atomic. Either every entry of the input mapping
is valid, and the call returns a schema carrying exactly the input's keys
in the input's order, or some entry is invalid (unknown tag or failed
validation), and the call fails with no schema returned. -/
theorem C3_from_raw_atomic (input : List (String × List (String × RawValue))) :
    ((∀ kv ∈ input, ∃ c, parse_single_config kv.2 = .ok c) ∧
      ∃ s, DatabaseSchema.from_raw input = .ok s ∧
        s.configs.map Prod.fst = input.map Prod.fst)
  ∨ ((∃ kv ∈ input, ∃ e, parse_single_config kv.2 = .error e) ∧
      ∀ s, DatabaseSchema.from_raw input ≠ .ok s) := by
  by_cases h : ∀ kv ∈ input, ∃ c, parse_single_config kv.2 = .ok c
  · left
    obtain ⟨out, hout, hkeys⟩ := parseEntries_ok_of_forall_ok input h
    exact ⟨h, ⟨out⟩, by simp [DatabaseSchema.from_raw, hout, Except.map], hkeys⟩
  · right
    push_neg at h
    obtain ⟨kv, hmem, hko⟩ := h
    have hex : ∃ kv ∈ input, ∃ e, parse_single_config kv.2 = .error e := by
      refine ⟨kv, hmem, ?_⟩
      cases hc : parse_single_config kv.2 with
      | error e => exact ⟨e, rfl⟩
      | ok c => exact absurd hc (hko c)
    obtain ⟨e, he⟩ := parseEntries_error_of_exists input hex
    exact ⟨hex, fun s hs => by
      simp [DatabaseSchema.from_raw, he, Except.map] at hs⟩

/-- **C4** (code bug, evaluated at the failing input): on a frame with a
textual, an integer, a boolean and a datetime column, `from_df` with no
explicit title column maps `name ↦ title`, `age ↦ number`,
`joined ↦ date` as claimed — but the boolean column `active` is mapped to
the *number* variant, not `checkbox`: pandas `is_numeric_dtype` is true
for the boolean dtype, so the numeric branch of `_infer_series_config`
fires before the (thereby unreachable) boolean branch. -/
theorem C4_bool_column_infers_number :
    DatabaseSchema.from_df
      ⟨[("name", ⟨.object, [.scalar (.pstr "alice"), .scalar (.pstr "bob")]⟩),
        ("age", ⟨.int64, [.scalar (.pint 25), .scalar (.pint 30)]⟩),
        ("active", ⟨.boolDtype, [.scalar (.pbool true), .scalar (.pbool false)]⟩),
        ("joined", ⟨.datetime64,
          [.scalar (.pdatetime "2021-01-01"), .scalar (.pdatetime "2021-06-01")]⟩)]⟩
      none =
    Except.ok ⟨[("name", some TitleConfig_default),
                ("age", some NumberConfig_number),
                ("active", some NumberConfig_number),
                ("joined", some DateConfig_default)]⟩ := rfl

/-- **C5**: for an object column whose every value is list-like,
inference yields the `multi_select` variant whose option value set is
exactly the union of all elements across all rows, stringified: there are
no duplicate option values, and a string is an option value precisely
when it is the stringification of some element of some row. -/
theorem C5_multiselect_options (column : Series)
    (hdt : column.dtype = Dtype.object)
    (hll : column.values.all is_list_like = true) :
    ∃ opts : SelectOptions,
      _infer_series_config column = some (MultiSelectConfig_of opts)
    ∧ (opts.options.map SelectOption.value).Nodup
    ∧ ∀ s : String, s ∈ opts.options.map SelectOption.value ↔
        ∃ v ∈ (column.values.map listElems).flatten, pyStrScalar v = s := by
  have hstr : ∀ x : String, pyStrScalar (.pstr x) = x := fun _ => rfl
  refine ⟨SelectOptions.from_value
      (((((column.values.map listElems).flatten).dedup).map pyStrScalar).map .pstr),
    ?_, ?_, ?_⟩
  · simp [_infer_series_config, hdt, hll, is_object_dtype]
  · simp [SelectOptions.from_value, List.map_map, Function.comp_def, hstr,
      List.nodup_dedup]
  · intro s
    simp [SelectOptions.from_value, List.map_map, Function.comp_def, hstr,
      List.mem_dedup, List.mem_map]

/-- Witness for C5: a column of two string lists with an overlap. -/
theorem C5_multiselect_options_witness :
    ∃ opts : SelectOptions,
      _infer_series_config ⟨.object,
        [.plist [.pstr "a", .pstr "b"], .plist [.pstr "b", .pstr "c"]]⟩ =
        some (MultiSelectConfig_of opts)
    ∧ (opts.options.map SelectOption.value).Nodup
    ∧ ∀ s : String, s ∈ opts.options.map SelectOption.value ↔
        ∃ v ∈ (([.plist [.pstr "a", .pstr "b"], .plist [.pstr "b", .pstr "c"]] :
            List PandasValue).map listElems).flatten, pyStrScalar v = s :=
  C5_multiselect_options _ rfl rfl

/-- **C6** (code bug, evaluated at the failing input): for a categorical
column with category labels `"a"`, `"b"`, the claim expects the option
set `{"a", "b"}`; the code's `[str for cat in dtype.categories]` instead
produces the builtin class `str` once per category, so the resulting
(deduplicated) option set is the single value `"<class 'str'>"`. -/
theorem C6_categorical_options_bug :
    _infer_series_config ⟨.category [.pstr "a", .pstr "b"],
      [.scalar (.pstr "a"), .scalar (.pstr "b")]⟩ =
    some (SelectConfig_of ⟨[⟨"<class 'str'>"⟩]⟩) := rfl

/-- **C7** (code bug, evaluated at the failing input): for a schema
column holding the rollup variant, `transform` cannot resolve a
sanitizer. The pipeline table does register `"rollup"` with the
coerce-to-safe-string transform, but no constructed rollup config ever
carries that tag: `RollupConfig` declares the field `roll_up`, so its
auto-derived tag is `"roll_up"`, and a directly constructed
`RollupConfig(roll_up=...)` even has `type = None`. In both cases the
table lookup raises `KeyError` instead of applying the sanitizer. -/
theorem C7_rollup_transform_raises :
    DatabaseSchema.transform
      ⟨[("r", some (RollupConfig_of ⟨"rel", "target", "sum"⟩))]⟩
      ⟨[("r", ⟨.object, [.scalar (.pstr "x")]⟩)]⟩ =
      Except.error (.keyError "None")
  ∧ DatabaseSchema.transform
      ⟨[("r", some ⟨.rollup, none, some "roll_up", .rollupProp ⟨"rel", "target", "sum"⟩⟩)]⟩
      ⟨[("r", ⟨.object, [.scalar (.pstr "x")]⟩)]⟩ =
      Except.error (.keyError "roll_up")
  ∧ (alookup CONFIGS_DF_TRANSFORMER "rollup").isSome = true
  ∧ Variant.rollup.autoType = "roll_up"
  ∧ Variant.rollup.registryTag = "rollup" :=
  ⟨rfl, rfl, rfl, by decide, by decide⟩

/-- The only missing values are `NaN` and `None`. -/
theorem eq_of_isMissing (v : PandasValue) (h : isMissing v = true) :
    v = .scalar .nan ∨ v = .scalar .pNone := by
  cases v with
  | scalar s => cases s <;> simp_all [isMissing]
  | plist es => simp [isMissing] at h

theorem SECURE_STR_missing (v : PandasValue) (hv : isMissing v = true) :
    isMissing (SECURE_STR_TRANSFORM v) = true := by
  rcases eq_of_isMissing v hv with rfl | rfl <;> rfl

theorem SECURE_BOOL_missing (v : PandasValue) (hv : isMissing v = true) :
    isMissing (SECURE_BOOL_TRANSFORM v) = true := by
  rcases eq_of_isMissing v hv with rfl | rfl <;> rfl

theorem SECURE_TIME_missing (v : PandasValue) (hv : isMissing v = true) :
    isMissing (SECURE_TIME_TRANSFORM v) = true := by
  rcases eq_of_isMissing v hv with rfl | rfl <;> rfl

/-- The `multi_select` sanitizer turns a missing value into its Python
string form (`is_list_like` is false on `NaN`/`None`, so the `else
str(lst)` arm fires). -/
theorem multiSelect_missing_to_str (v : PandasValue) (hv : isMissing v = true) :
    multiSelectTransform v = .scalar (.pstr (pyStr v)) := by
  rcases eq_of_isMissing v hv with rfl | rfl <;> rfl

/-- **C8** counterexample: the claim fails at the `multi_select` entry of
the pipeline table: applied to the already-missing value `NaN` it returns
the string `"nan"`, which is not a missing value. -/
theorem C8_multiselect_sanitizer_not_missing_preserving :
    alookup CONFIGS_DF_TRANSFORMER "multi_select" = some (some multiSelectTransform)
  ∧ multiSelectTransform (.scalar .nan) = .scalar (.pstr "nan")
  ∧ isMissing (.scalar .nan) = true
  ∧ isMissing (multiSelectTransform (.scalar .nan)) = false :=
  ⟨rfl, rfl, rfl, rfl⟩

/-- Every non-null pipeline entry other than the `multi_select` one is
one of the three `SECURE_*` coercions. -/
theorem table_entry_is_secure (tag : String) (f : PandasValue → PandasValue)
    (hf : (tag, some f) ∈ CONFIGS_DF_TRANSFORMER) (hne : tag ≠ "multi_select") :
    f = SECURE_STR_TRANSFORM ∨ f = SECURE_BOOL_TRANSFORM ∨
      f = SECURE_TIME_TRANSFORM := by
  simp only [CONFIGS_DF_TRANSFORMER, List.mem_cons, List.not_mem_nil, or_false,
    Prod.mk.injEq, Option.some.injEq, reduceCtorEq, false_and, and_false,
    false_or] at hf
  tauto

/-- The pipeline's `multi_select` entry is the stringifying lambda. -/
theorem table_multiselect_entry (f : PandasValue → PandasValue)
    (hf : ("multi_select", some f) ∈ CONFIGS_DF_TRANSFORMER) :
    f = multiSelectTransform := by
  simp only [CONFIGS_DF_TRANSFORMER, List.mem_cons, List.not_mem_nil, or_false,
    Prod.mk.injEq, Option.some.injEq, reduceCtorEq, false_and, and_false,
    false_or, String.reduceEq, true_and] at hf
  tauto

/-- **C8** amended: every sanitizer registered in the pipeline table is a
total function on missing inputs (no exception is raised); every
sanitizer except the `multi_select` one maps a missing value to a missing
value, while the `multi_select` sanitizer maps a missing value to its
string form instead of keeping it missing. -/
theorem C8_sanitizers_on_missing (tag : String) (f : PandasValue → PandasValue)
    (hf : (tag, some f) ∈ CONFIGS_DF_TRANSFORMER)
    (v : PandasValue) (hv : isMissing v = true) :
    (tag ≠ "multi_select" → isMissing (f v) = true)
  ∧ (tag = "multi_select" → f v = .scalar (.pstr (pyStr v))) := by
  constructor
  · intro hne
    rcases table_entry_is_secure tag f hf hne with rfl | rfl | rfl
    · exact SECURE_STR_missing v hv
    · exact SECURE_BOOL_missing v hv
    · exact SECURE_TIME_missing v hv
  · intro hms
    subst hms
    rw [table_multiselect_entry f hf]
    exact multiSelect_missing_to_str v hv

/-- Witness for C8's amended statement at the `title` sanitizer and `NaN`. -/
theorem C8_sanitizers_on_missing_witness :
    ((("title" : String) ≠ "multi_select" →
        isMissing (SECURE_STR_TRANSFORM (.scalar .nan)) = true)
  ∧ (("title" : String) = "multi_select" →
        SECURE_STR_TRANSFORM (.scalar .nan) = .scalar (.pstr (pyStr (.scalar .nan))))) :=
  C8_sanitizers_on_missing "title" SECURE_STR_TRANSFORM (List.mem_cons_self _ _)
    (.scalar .nan) rfl

/-- A successfully transformed column keeps its name. -/
theorem transformColumn_fst (sch : DatabaseSchema) (name : String) (s : Series)
    (p : String × Series) (h : transformColumn sch name s = .ok p) : p.1 = name := by
  unfold transformColumn at h
  split at h
  · cases h
  · cases h
  · split at h
    · cases h
    · split at h
      · cases h
      · injection h with h'; subst h'; rfl
      · injection h with h'; subst h'; rfl

/-- A column whose config carries the tag `"number"` is returned as is:
the pipeline table maps `"number"` to `None` and the loop skips it. -/
theorem transformColumn_number (sch : DatabaseSchema) (name : String) (s : Series)
    (cfg : PropertyConfig) (h1 : alookup sch.configs name = some (some cfg))
    (h2 : cfg.type = some "number") :
    transformColumn sch name s = .ok (name, s) := by
  simp [transformColumn, h1, h2, alookup, CONFIGS_DF_TRANSFORMER]

/-- The column loop of `transform`, on success, produces one output
column per input column, positionally the result of `transformColumn`. -/
theorem transformCols_ok_spec (sch : DatabaseSchema) :
    ∀ l out : List (String × Series), transformCols sch l = .ok out →
      out.length = l.length ∧
      ∀ i (hi : i < l.length) (hi' : i < out.length),
        transformColumn sch (l.get ⟨i, hi⟩).1 (l.get ⟨i, hi⟩).2 =
          .ok (out.get ⟨i, hi'⟩) := by
  intro l
  induction l with
  | nil =>
    intro out h
    injection h with h'
    subst h'
    exact ⟨rfl, fun i hi => absurd hi (Nat.not_lt_zero i)⟩
  | cons kv rest ih =>
    intro out h
    cases hc : transformColumn sch kv.1 kv.2 with
    | error e => simp [transformCols, hc, Bind.bind, Except.bind] at h
    | ok c =>
      cases hr : transformCols sch rest with
      | error e => simp [transformCols, hc, hr, Bind.bind, Except.bind] at h
      | ok cs =>
        have hout : out = c :: cs := by
          simp [transformCols, hc, hr, Bind.bind, Except.bind, Pure.pure,
            Except.pure] at h
          exact h.symm
        subst hout
        obtain ⟨hlen, hspec⟩ := ih cs hr
        refine ⟨by simp [hlen], ?_⟩
        intro i hi hi'
        match i with
        | 0 => exact hc
        | Nat.succ j =>
          exact hspec j (Nat.lt_of_succ_lt_succ hi) (Nat.lt_of_succ_lt_succ hi')

/-- **C9**: `transform` is a pure function of its input (the code copies
the frame before rewriting, so the input is never mutated and the result
is a fresh frame); on success the output has exactly the input's columns
in the input's order, and every column whose config tag has the null
pipeline entry (`"number"`) is returned unchanged. -/
theorem C9_transform_number_passthrough (sch : DatabaseSchema) (df out : DataFrame)
    (h : sch.transform df = .ok out) :
    out.cols.length = df.cols.length
  ∧ out.cols.map Prod.fst = df.cols.map Prod.fst
  ∧ ∀ i (hi : i < df.cols.length) (hi' : i < out.cols.length),
      ∀ cfg : PropertyConfig,
        alookup sch.configs (df.cols.get ⟨i, hi⟩).1 = some (some cfg) →
        cfg.type = some "number" →
        out.cols.get ⟨i, hi'⟩ = df.cols.get ⟨i, hi⟩ := by
  have hcols : transformCols sch df.cols = .ok out.cols := by
    unfold DatabaseSchema.transform at h
    cases htc : transformCols sch df.cols with
    | error e => rw [htc] at h; cases h
    | ok cs => rw [htc] at h; injection h with h'; subst h'; rfl
  obtain ⟨hlen, hspec⟩ := transformCols_ok_spec sch df.cols out.cols hcols
  refine ⟨hlen, ?_, ?_⟩
  · apply List.ext_get (by simp [hlen])
    intro i h1 h2
    have hi : i < df.cols.length := by simpa using h2
    have hi' : i < out.cols.length := by simpa using h1
    have := transformColumn_fst sch _ _ _ (hspec i hi hi')
    simpa using this
  · intro i hi hi' cfg h1 h2
    have := hspec i hi hi'
    rw [transformColumn_number sch _ _ cfg h1 h2] at this
    injection this with h'
    rw [← h']

/-- Witness for C9: a one-column number schema; the frame passes through
unchanged. -/
theorem C9_transform_number_passthrough_witness :
    ((⟨[("n", ⟨.int64, [.scalar (.pint 7)]⟩)]⟩ : DataFrame).cols.length =
      (⟨[("n", ⟨.int64, [.scalar (.pint 7)]⟩)]⟩ : DataFrame).cols.length)
  ∧ ((⟨[("n", ⟨.int64, [.scalar (.pint 7)]⟩)]⟩ : DataFrame).cols.map Prod.fst =
      (⟨[("n", ⟨.int64, [.scalar (.pint 7)]⟩)]⟩ : DataFrame).cols.map Prod.fst)
  ∧ ∀ i (hi : i < (⟨[("n", ⟨.int64, [.scalar (.pint 7)]⟩)]⟩ : DataFrame).cols.length)
      (hi' : i < (⟨[("n", ⟨.int64, [.scalar (.pint 7)]⟩)]⟩ : DataFrame).cols.length),
      ∀ cfg : PropertyConfig,
        alookup (⟨[("n", some ⟨.number, none, some "number", .numberFmt ⟨"number"⟩⟩)]⟩ :
            DatabaseSchema).configs
          ((⟨[("n", ⟨.int64, [.scalar (.pint 7)]⟩)]⟩ : DataFrame).cols.get ⟨i, hi⟩).1 =
          some (some cfg) →
        cfg.type = some "number" →
        ((⟨[("n", ⟨.int64, [.scalar (.pint 7)]⟩)]⟩ : DataFrame).cols.get ⟨i, hi'⟩) =
          ((⟨[("n", ⟨.int64, [.scalar (.pint 7)]⟩)]⟩ : DataFrame).cols.get ⟨i, hi⟩) :=
  C9_transform_number_passthrough
    ⟨[("n", some ⟨.number, none, some "number", .numberFmt ⟨"number"⟩⟩)]⟩
    ⟨[("n", ⟨.int64, [.scalar (.pint 7)]⟩)]⟩
    ⟨[("n", ⟨.int64, [.scalar (.pint 7)]⟩)]⟩ rfl

/-- A key outside a dict is not found. -/
theorem alookup_eq_none {α : Type} :
    ∀ (d : List (String × α)) (k : String), k ∉ d.map Prod.fst →
      alookup d k = none := by
  intro d k
  induction d with
  | nil => exact fun _ => rfl
  | cons hd tl ih =>
    intro h
    simp only [List.map_cons, List.mem_cons, not_or] at h
    have hne : hd.1 ≠ k := fun h' => h.1 h'.symm
    simp [alookup, hne, ih h.2]

/-- Lookup skips a prefix containing none of the key. -/
theorem alookup_append_right {α : Type} :
    ∀ (d e : List (String × α)) (k : String), k ∉ d.map Prod.fst →
      alookup (d ++ e) k = alookup e k := by
  intro d e k
  induction d with
  | nil => exact fun _ => rfl
  | cons hd tl ih =>
    intro h
    simp only [List.map_cons, List.mem_cons, not_or] at h
    have hne : hd.1 ≠ k := fun h' => h.1 h'.symm
    simp [alookup, hne, ih h.2]

/-- Assigning a fresh key appends the entry at the end, as in a Python
dict. -/
theorem dictSet_append {α : Type} (d : List (String × α)) (k : String) (v : α)
    (h : k ∉ d.map Prod.fst) : dictSet d k v = d ++ [(k, v)] := by
  unfold dictSet
  rw [if_neg]
  intro hc
  rw [List.any_eq_true] at hc
  obtain ⟨kv, hkv, hp⟩ := hc
  exact h (List.mem_map.mpr ⟨kv, hkv, of_decide_eq_true hp⟩)

/-- Building a dict by assigning pairwise-distinct fresh keys in order
appends one entry per key, in order. -/
theorem foldl_dictSet_of_nodup {α : Type} (f : Series → α) :
    ∀ (l : List (String × Series)) (acc : List (String × α)),
      (l.map Prod.fst).Nodup →
      (∀ x ∈ l.map Prod.fst, x ∉ acc.map Prod.fst) →
      l.foldl (fun acc kv => dictSet acc kv.1 (f kv.2)) acc =
        acc ++ l.map fun kv => (kv.1, f kv.2) := by
  intro l
  induction l with
  | nil => intro acc _ _; simp
  | cons hd tl ih =>
    intro acc hnd hfresh
    simp only [List.map_cons, List.nodup_cons] at hnd
    simp only [List.foldl_cons]
    rw [dictSet_append _ _ _ (hfresh hd.1 (by simp))]
    rw [ih (acc ++ [(hd.1, f hd.2)]) hnd.2 ?_]
    · simp
    · intro x hx
      simp only [List.map_append, List.mem_append, List.map_cons, List.map_nil,
        List.mem_singleton, not_or]
      refine ⟨hfresh x (by simp [hx]), ?_⟩
      intro hxe
      exact hnd.1 (hxe ▸ hx)

/-- `infer_objects` changes only dtypes, never the column names. -/
theorem infer_objects_keys (df : DataFrame) :
    df.infer_objects.cols.map Prod.fst = df.cols.map Prod.fst := by
  simp [DataFrame.infer_objects, List.map_map, Function.comp_def]

/-- **C10**: when the explicitly supplied title column name is not among
the frame's columns, `from_df` does not fail; it returns a schema with
one entry per frame column, in order, plus an appended entry mapping the
supplied name to the title variant — one more entry than the frame has
columns. -/
theorem C10_from_df_foreign_title (df : DataFrame) (t : String)
    (hnd : (df.cols.map Prod.fst).Nodup) (ht : t ∉ df.cols.map Prod.fst) :
    ∃ s : DatabaseSchema, DatabaseSchema.from_df df (some t) = .ok s
    ∧ s.configs.map Prod.fst = df.cols.map Prod.fst ++ [t]
    ∧ alookup s.configs t = some (some TitleConfig_default)
    ∧ s.configs.length = df.cols.length + 1 := by
  have hkeys' : df.infer_objects.cols.map Prod.fst = df.cols.map Prod.fst :=
    infer_objects_keys df
  have hnd' : (df.infer_objects.cols.map Prod.fst).Nodup := by
    rw [hkeys']; exact hnd
  have hfold : df.infer_objects.cols.foldl
      (fun acc kv => dictSet acc kv.1 (_infer_series_config kv.2)) [] =
      df.infer_objects.cols.map fun kv => (kv.1, _infer_series_config kv.2) := by
    simpa using foldl_dictSet_of_nodup _infer_series_config
      df.infer_objects.cols [] hnd' (by simp)
  have hckeys : ((df.infer_objects.cols.map fun kv =>
      (kv.1, _infer_series_config kv.2)).map Prod.fst) = df.cols.map Prod.fst := by
    rw [← hkeys']
    simp [List.map_map, Function.comp_def]
  have htc : t ∉ ((df.infer_objects.cols.map fun kv =>
      (kv.1, _infer_series_config kv.2)).map Prod.fst) := by
    rw [hckeys]; exact ht
  refine ⟨_, rfl, ?_, ?_, ?_⟩
  · rw [hfold, dictSet_append _ _ _ htc]
    simp only [List.map_append, hckeys, List.map_cons, List.map_nil]
  · rw [hfold, dictSet_append _ _ _ htc, alookup_append_right _ _ _ htc]
    simp [alookup]
  · rw [hfold, dictSet_append _ _ _ htc]
    simp [DataFrame.infer_objects]

/-- Witness for C10: a one-column frame and the foreign title name `"T"`. -/
theorem C10_from_df_foreign_title_witness :
    ∃ s : DatabaseSchema,
      DatabaseSchema.from_df ⟨[("a", ⟨.int64, [.scalar (.pint 1)]⟩)]⟩ (some "T") =
        .ok s
    ∧ s.configs.map Prod.fst =
        (⟨[("a", ⟨.int64, [.scalar (.pint 1)]⟩)]⟩ : DataFrame).cols.map Prod.fst ++ ["T"]
    ∧ alookup s.configs "T" = some (some TitleConfig_default)
    ∧ s.configs.length =
        (⟨[("a", ⟨.int64, [.scalar (.pint 1)]⟩)]⟩ : DataFrame).cols.length + 1 :=
  C10_from_df_foreign_title ⟨[("a", ⟨.int64, [.scalar (.pint 1)]⟩)]⟩ "T"
    (by simp) (by simp)

end NotionDf
